import Mathlib

/-!
Shallow embedding of the aggregation and financial-derivation engine of the
MOT2 payroll application (React/TypeScript).  All JavaScript numbers are
modelled as exact rationals (ℚ); identifiers are naturals; ISO date strings
are kept as strings and compared lexicographically, as the source does.

Source files embedded here:
  * src/components/FinalReportView.tsx   (bi-monthly report, payroll and
    transfer-order cascade in handleSave, log filter in handleGenerateDraft,
    aggregation in ReportContent)
  * src/components/DetailedPayrollView.tsx (generateReportData,
    handleSaveAdjustments)
  * src/components/TransferOrderView.tsx  (PayrollView.handleSaveAdjustments
    and the avance parsing in its ReportContent)
  * src/components/AnnualSummaryView.tsx  (handleGenerateDraft rollup)
  * src/unnamed/part_000                  (SeasonView aggregation)
-/

namespace MOT2

/-- Fixed task id of the milk in-kind indemnity (`LAIT_TASK_ID = 37`). -/
def LAIT_TASK_ID : ℕ := 37

/-- Fixed task id of the meal-basket in-kind indemnity (`PANIER_TASK_ID = 47`). -/
def PANIER_TASK_ID : ℕ := 47

/-- Split-withholding CNSS rate (`RET_CNSS_RATE = 0.0448`, DetailedPayrollView). -/
def RET_CNSS_RATE : ℚ := 0.0448

/-- Split-withholding AMO rate (`RET_AMO_RATE = 0.0226`, DetailedPayrollView). -/
def RET_AMO_RATE : ℚ := 0.0226

/-- Combined withholding rate `0.0674` used by the payroll / transfer-order /
annual flows (`totalBrut * 0.0674` in the source). -/
def COMBINED_RATE : ℚ := 0.0674

/-- An activity log entry (`DailyLog` in src/types): workerId, taskId,
quantity, ISO date string, and the ownership tag recorded on the entry. -/
structure DailyLog where
  workerId : ℕ
  taskId : ℕ
  quantity : ℚ
  date : String
  owner : String
deriving DecidableEq

/-- A worker record; only the fields the derivation engine reads. -/
structure Worker where
  id : ℕ
  name : String
  seniorityPercentage : ℚ
deriving DecidableEq

/-- An attendance entry (`WorkedDays` in src/types): at most one per
(worker, year, month, period); `periodFirst` encodes period = 'first'. -/
structure WorkedDaysEntry where
  workerId : ℕ
  year : ℕ
  month : ℕ
  periodFirst : Bool
  days : ℚ
  owner : String
deriving DecidableEq

/-- A worker group: name, owner tag (absent when falsy in the source), and
its workers. -/
structure WorkerGroup where
  groupName : String
  owner : Option String
  workers : List Worker
deriving DecidableEq

/-- Lexicographic strict order on character lists, mirroring JavaScript's
string `<` on the ASCII date strings the source compares. -/
def charListLt : List Char → List Char → Bool
  | [], [] => false
  | [], _ :: _ => true
  | _ :: _, [] => false
  | a :: as, b :: bs => if a < b then true else if b < a then false else charListLt as bs

/-- `strLe a b` models the JavaScript string comparison `a <= b`. -/
def strLe (a b : String) : Bool := a == b || charListLt a.data b.data

/-- Price lookup with fallback, mirroring `taskMap.get(id)?.price || 0`. -/
def priceOf (tm : ℕ → Option ℚ) (t : ℕ) : ℚ := (tm t).getD 0

/-! ### Period resolution (ISO date strings for a half-month period) -/

/-- Gregorian leap-year test, as JavaScript's Date implements it. -/
def isLeap (y : ℕ) : Bool := (y % 4 == 0 && y % 100 != 0) || y % 400 == 0

/-- Number of days in a month, mirroring `new Date(year, month, 0).getDate()`. -/
def daysInMonth (y m : ℕ) : ℕ :=
  if m == 2 then (if isLeap y then 29 else 28)
  else if m == 4 || m == 6 || m == 9 || m == 11 then 30
  else 31

/-- Zero-pad a day or month number to two digits. -/
def pad2 (n : ℕ) : String := if n < 10 then "0" ++ toString n else toString n

/-- Render a year/month/day as the `YYYY-MM-DD` prefix of `toISOString()`. -/
def isoDate (y m d : ℕ) : String := toString y ++ "-" ++ pad2 m ++ "-" ++ pad2 d

/-- Start date of a half-month period: day 1 or day 16. -/
def periodStartDate (year month : ℕ) (periodFirst : Bool) : String :=
  isoDate year month (if periodFirst then 1 else 16)

/-- End date of a half-month period: day 15 or the end of the month. -/
def periodEndDate (year month : ℕ) (periodFirst : Bool) : String :=
  isoDate year month (if periodFirst then 15 else daysInMonth year month)

/-! ### Attendance lookup -/

/-- `getDaysWorkedForWorker`: first attendance entry matching
(worker, year, month, period), defaulting to 0 (`entry?.days || 0`). -/
def getDaysWorked (wds : List WorkedDaysEntry) (workerId year month : ℕ)
    (periodFirst : Bool) : ℚ :=
  match wds.find? (fun d => d.workerId == workerId && d.year == year &&
      d.month == month && d.periodFirst == periodFirst) with
  | some d => d.days
  | none => 0

/-! ### Bi-monthly aggregation (FinalReportView) -/

/-- The log filter of `handleGenerateDraft` (FinalReportView line 355):
date in range and worker selected; note there is no owner condition. -/
def logsForReport (allLogs : List DailyLog) (startDateStr endDateStr : String)
    (workerIdsToReport : List ℕ) : List DailyLog :=
  allLogs.filter fun log =>
    strLe startDateStr log.date && strLe log.date endDateStr &&
    workerIdsToReport.contains log.workerId

/-- The per-worker per-task quantity accumulation shared by the report
views: fold over logs, adding each contributing entry's quantity into a
(worker, task) cell.  `cond` is the per-entry admission test applied inside
the loop (constantly true for the bi-monthly table, the owner test for the
season view). -/
def accumulateQuantities (cond : DailyLog → Bool) (logs : List DailyLog) :
    ℕ → ℕ → ℚ :=
  logs.foldl
    (fun acc log =>
      if cond log then
        fun w t => if w = log.workerId ∧ t = log.taskId
          then acc w t + log.quantity else acc w t
      else acc)
    (fun _ _ => 0)

/-- The `dataMap` accumulation of `ReportContent` (FinalReportView lines
44-65): every supplied log contributes. -/
def reportDataMap (logs : List DailyLog) : ℕ → ℕ → ℚ :=
  accumulateQuantities (fun _ => true) logs

/-! ### Season aggregation (SeasonView, src/unnamed/part_000) -/

/-- `workerOwnerMap`: worker id to the owner of the (last) group that lists
the worker, skipping groups with no owner. -/
def workerOwnerMap (groups : List WorkerGroup) : ℕ → Option String :=
  groups.foldl
    (fun m g =>
      match g.owner with
      | none => m
      | some ow => g.workers.foldl
          (fun m2 w => fun wid => if wid = w.id then some ow else m2 wid) m)
    (fun _ => none)

/-- All worker ids seeded into the season accumulator (`data.set` over every
group's workers). -/
def seasonWorkerIds (groups : List WorkerGroup) : List ℕ :=
  ((groups.map (·.workers)).flatten).map (·.id)

/-- Per-entry admission test of the season log loop:
`data.has(log.workerId) && log.owner === workerOwnerId`. -/
def seasonLogCond (groups : List WorkerGroup) (log : DailyLog) : Bool :=
  (seasonWorkerIds groups).contains log.workerId &&
  workerOwnerMap groups log.workerId == some log.owner

/-- Season task totals (`summaryData` useMemo, part_000 lines 56-97): filter
logs to the season date range, then accumulate quantities for workers whose
entry owner matches their current owner of record. -/
def seasonTaskTotals (groups : List WorkerGroup) (allLogs : List DailyLog)
    (startDate endDate : String) : ℕ → ℕ → ℚ :=
  accumulateQuantities (seasonLogCond groups)
    (allLogs.filter fun log => strLe startDate log.date && strLe log.date endDate)

/-- Season membership of an attendance entry: its (year, month) is within
[May startYear, May (startYear+1)), as the UTC-date comparison computes. -/
def inSeason (startYear : ℕ) (wd : WorkedDaysEntry) : Bool :=
  decide (startYear * 12 + 4 ≤ wd.year * 12 + (wd.month - 1)) &&
  decide (wd.year * 12 + (wd.month - 1) < (startYear + 1) * 12 + 4)

/-- Per-worker days accumulation with an admission test, mirroring the
season attendance loop. -/
def accumulateDays (cond : WorkedDaysEntry → Bool) (wds : List WorkedDaysEntry) :
    ℕ → ℚ :=
  wds.foldl
    (fun acc wd =>
      if cond wd then
        fun w => if w = wd.workerId then acc w + wd.days else acc w
      else acc)
    (fun _ => 0)

/-- Season days-worked totals (part_000 lines 62-97): entries within the
season whose owner matches the worker's owner of record. -/
def seasonDays (groups : List WorkerGroup) (wds : List WorkedDaysEntry)
    (startYear : ℕ) : ℕ → ℚ :=
  accumulateDays
    (fun wd => (seasonWorkerIds groups).contains wd.workerId &&
      workerOwnerMap groups wd.workerId == some wd.owner)
    (wds.filter (inSeason startYear))

/-! ### Adjustment-input parsing -/

/-- Split a character list into its leading run of decimal digits and the
remainder. -/
def splitDigits : List Char → List Char × List Char
  | [] => ([], [])
  | c :: cs =>
    if c.isDigit then
      let p := splitDigits cs
      (c :: p.1, p.2)
    else ([], c :: cs)

/-- Value of a digit run, most significant first. -/
def digitsToNat (ds : List Char) : ℕ :=
  ds.foldl (fun n c => 10 * n + (c.toNat - 48)) 0

/-- Model of JavaScript `parseFloat` on the adjustment inputs: an optional
sign followed by a decimal literal prefix; `none` models the `NaN` result
when no digits can be read. -/
def jsParseFloat (s : String) : Option ℚ :=
  let p :=
    match s.data with
    | '-' :: r => ((-1 : ℚ), r)
    | '+' :: r => ((1 : ℚ), r)
    | r => ((1 : ℚ), r)
  let ip := splitDigits p.2
  match ip.2 with
  | '.' :: r2 =>
    let fp := splitDigits r2
    if ip.1.isEmpty && fp.1.isEmpty then none
    else some (p.1 * ((digitsToNat ip.1 : ℚ) + (digitsToNat fp.1 : ℚ) / (10 ^ fp.1.length)))
  | _ => if ip.1.isEmpty then none else some (p.1 * (digitsToNat ip.1 : ℚ))

/-- `parseFloat(value || '0') || 0`: a missing or empty field falls back to
the string "0", and an unparseable field (NaN) falls back to 0.  Used for
`avanceAid`/`ir` in DetailedPayrollView and `avance` in PayrollView. -/
def parseAdjField (v : Option String) : ℚ :=
  let s := match v with
    | none => "0"
    | some s => if s = "" then "0" else s
  (jsParseFloat s).getD 0

/-- The `jourFerier` parsing of PayrollView.handleSaveAdjustments:
`value !== undefined && value !== '' ? parseFloat(value) : 0`, followed by
the `isNaN(x) ? 0 : x` guard. -/
def parseJourFerierInput (v : Option String) : ℚ :=
  match v with
  | none => 0
  | some s => if s = "" then 0 else (jsParseFloat s).getD 0

/-! ### Financial derivation: transfer order (FinalReportView handleSave) -/

/-- Sum of `quantity × price(taskId)` over a list of logs, as the
`reduce((sum, log) => sum + quantity * (price || 0), 0)` loops compute. -/
def sumAmounts (logs : List DailyLog) (tm : ℕ → Option ℚ) : ℚ :=
  logs.foldl (fun sum log => sum + log.quantity * priceOf tm log.taskId) 0

/-- All intermediate fields of the transfer-order derivation
(FinalReportView lines 431-442). -/
structure TransferCalc where
  totalOperation : ℚ
  anciennete : ℚ
  jourFerier : ℚ
  totalBrut : ℚ
  retenu : ℚ
  indemniteLait : ℚ
  primePanier : ℚ
  netPay : ℚ
deriving DecidableEq

/-- The transfer-order per-worker derivation of `handleSave`:
`totalOperation` over the worker's non-indemnity logs, then the fixed-order
formula pipeline down to `netPay` (no advance is subtracted here). -/
def transferCalcOf (draftLogs : List DailyLog) (tm : ℕ → Option ℚ)
    (joursTravailles : ℚ) (w : Worker) : TransferCalc :=
  let totalOperation := sumAmounts
    (draftLogs.filter fun l => l.workerId == w.id &&
      l.taskId != LAIT_TASK_ID && l.taskId != PANIER_TASK_ID) tm
  let anciennete := totalOperation * (w.seniorityPercentage / 100)
  let jourFerier : ℚ := 0
  let totalBrut := totalOperation + anciennete + jourFerier
  let retenu := totalBrut * COMBINED_RATE
  let indemniteLait := joursTravailles * priceOf tm LAIT_TASK_ID
  let primePanier := joursTravailles * priceOf tm PANIER_TASK_ID
  let netPay := totalBrut - retenu + indemniteLait + primePanier
  { totalOperation := totalOperation, anciennete := anciennete,
    jourFerier := jourFerier, totalBrut := totalBrut, retenu := retenu,
    indemniteLait := indemniteLait, primePanier := primePanier, netPay := netPay }

/-- `transferOrderData` of `handleSave`: derive every worker, keep
(workerId, netPay), then drop items with `netPay <= 0`
(`.filter(item => item.netPay > 0)`). -/
def transferOrderData (draftLogs : List DailyLog) (wds : List WorkedDaysEntry)
    (tm : ℕ → Option ℚ) (year month : ℕ) (periodFirst : Bool)
    (workers : List Worker) : List (ℕ × ℚ) :=
  (workers.map fun w =>
    (w.id, (transferCalcOf draftLogs tm
      (getDaysWorked wds w.id year month periodFirst) w).netPay)).filter
    fun item => decide (0 < item.2)

/-! ### Financial derivation: payroll (FinalReportView handleSave) -/

/-- A line of the payroll `data` array (the fields the engine computes). -/
structure PayrollLine where
  workerId : ℕ
  totalOperation : ℚ
  anciennete : ℚ
  jourFerier : ℚ
  totalBrut : ℚ
  retenu : ℚ
  joursTravailles : ℚ
deriving DecidableEq

/-- `tasksSummary.set`: accumulate a quantity under a task id in an
insertion-ordered association list, as the JavaScript Map does. -/
def upsertTask (acc : List (ℕ × ℚ)) (taskId : ℕ) (q : ℚ) : List (ℕ × ℚ) :=
  match acc.find? (fun p => p.1 == taskId) with
  | some _ => acc.map fun p => if p.1 == taskId then (p.1, p.2 + q) else p
  | none => acc ++ [(taskId, q)]

/-- The payroll per-worker derivation of `handleSave` (lines 398-416):
group the worker's non-indemnity logs by task (skipping tasks missing from
the price table, `if (!task) return`), sum `quantity × price` per task into
`totalOperation`, then the pipeline down to `retenu`. -/
def payrollLineOf (draftLogs : List DailyLog) (tm : ℕ → Option ℚ)
    (joursTravailles : ℚ) (w : Worker) : PayrollLine :=
  let workerLogs := draftLogs.filter fun l => l.workerId == w.id
  let tasksSummary := (workerLogs.filter fun log =>
      log.taskId != LAIT_TASK_ID && log.taskId != PANIER_TASK_ID).foldl
    (fun acc log =>
      match tm log.taskId with
      | none => acc
      | some _ => upsertTask acc log.taskId log.quantity) []
  let workerTasks := tasksSummary.map fun p => (p.1, p.2, p.2 * priceOf tm p.1)
  let totalOperation := workerTasks.foldl (fun sum task => sum + task.2.2) 0
  let anciennete := totalOperation * (w.seniorityPercentage / 100)
  let jourFerier : ℚ := 0
  let totalBrut := totalOperation + anciennete + jourFerier
  let retenu := totalBrut * COMBINED_RATE
  { workerId := w.id, totalOperation := totalOperation, anciennete := anciennete,
    jourFerier := jourFerier, totalBrut := totalBrut, retenu := retenu,
    joursTravailles := joursTravailles }

/-- `payrollData` of `handleSave`: one line per draft worker, no filter. -/
def payrollData (draftLogs : List DailyLog) (wds : List WorkedDaysEntry)
    (tm : ℕ → Option ℚ) (year month : ℕ) (periodFirst : Bool)
    (workers : List Worker) : List PayrollLine :=
  workers.map fun w =>
    payrollLineOf draftLogs tm (getDaysWorked wds w.id year month periodFirst) w

/-- The payroll adjustment recomputation
(PayrollView.handleSaveAdjustments, TransferOrderView.tsx lines 341-363):
reparse `jourFerier` and rebuild `totalBrut`/`retenu` from the stored
`totalOperation` and `anciennete` of each line. -/
def recomputePayrollLine (adj : ℕ → Option String) (d : PayrollLine) : PayrollLine :=
  let jourFerier := parseJourFerierInput (adj d.workerId)
  let totalBrut := d.totalOperation + d.anciennete + jourFerier
  let retenu := totalBrut * COMBINED_RATE
  { d with jourFerier := jourFerier, totalBrut := totalBrut, retenu := retenu }

/-- `handleSaveAdjustments` of PayrollView: map the recomputation over the
snapshot's stored data array; the live log collection is not consulted. -/
def handleSaveAdjustmentsPayroll (adj : ℕ → Option String)
    (data : List PayrollLine) : List PayrollLine :=
  data.map (recomputePayrollLine adj)

/-! ### Financial derivation: detailed payroll (DetailedPayrollView) -/

/-- The per-worker adjustment strings of a detailed payroll
(`additionalInputs[workerId]`). -/
structure AdjustInput where
  avanceAid : String
  ir : String
deriving DecidableEq

/-- A line of `DetailedPayrollData`. -/
structure DetailedLine where
  workerId : ℕ
  montant : ℚ
  anciennete : ℚ
  total : ℚ
  indemLait : ℚ
  primePanier : ℚ
  retCnss : ℚ
  retAmo : ℚ
  avanceAid : ℚ
  ir : ℚ
  netAPayer : ℚ
  joursTravailles : ℚ
  congePaye : ℚ
  jourFerier : ℚ
deriving DecidableEq

/-- The per-worker body of `generateReportData` (DetailedPayrollView lines
314-328), given the worker's logs for the period and parsed-input sources. -/
def detailedLineOf (worker : Worker) (workerLogs : List DailyLog)
    (tm : ℕ → Option ℚ) (joursTravailles : ℚ)
    (avanceStr irStr : Option String) : DetailedLine :=
  let montant := sumAmounts (workerLogs.filter fun l =>
    l.taskId != LAIT_TASK_ID && l.taskId != PANIER_TASK_ID) tm
  let anciennete := montant * (worker.seniorityPercentage / 100)
  let total := montant + anciennete
  let indemLait := joursTravailles * priceOf tm LAIT_TASK_ID
  let primePanier := joursTravailles * priceOf tm PANIER_TASK_ID
  let retCnss := total * RET_CNSS_RATE
  let retAmo := total * RET_AMO_RATE
  let avanceAid := parseAdjField avanceStr
  let ir := parseAdjField irStr
  let netAPayer := total + indemLait + primePanier - retCnss - retAmo - avanceAid - ir
  { workerId := worker.id, montant := montant, anciennete := anciennete,
    total := total, indemLait := indemLait, primePanier := primePanier,
    retCnss := retCnss, retAmo := retAmo, avanceAid := avanceAid, ir := ir,
    netAPayer := netAPayer, joursTravailles := joursTravailles,
    congePaye := 0, jourFerier := 0 }

/-- `generateReportData` (DetailedPayrollView lines 302-330): resolve the
period to a date range, look up each requested worker (dropping ids missing
from the roster), filter the live logs by range and worker, and derive a
detailed line with the current adjustment inputs. -/
def generateReportData (allWorkers : List Worker) (allLogs : List DailyLog)
    (wds : List WorkedDaysEntry) (tm : ℕ → Option ℚ)
    (workerIds : List ℕ) (year month : ℕ) (periodFirst : Bool)
    (currentInputs : ℕ → Option AdjustInput) : List DetailedLine :=
  let startDateStr := periodStartDate year month periodFirst
  let endDateStr := periodEndDate year month periodFirst
  workerIds.filterMap fun workerId =>
    match allWorkers.find? (fun w => w.id == workerId) with
    | none => none
    | some worker =>
      let joursTravailles := getDaysWorked wds workerId year month periodFirst
      let workerLogs := allLogs.filter fun log =>
        strLe startDateStr log.date && strLe log.date endDateStr &&
        log.workerId == workerId
      some (detailedLineOf worker workerLogs tm joursTravailles
        ((currentInputs workerId).map (·.avanceAid))
        ((currentInputs workerId).map (·.ir)))

/-- `handleSaveAdjustments` of DetailedPayrollView (lines 364-380): the new
snapshot data is produced by re-running `generateReportData` over the LIVE
log and attendance collections with the edited adjustments. -/
def handleSaveAdjustmentsDetailed (allWorkers : List Worker)
    (liveLogs : List DailyLog) (liveWds : List WorkedDaysEntry)
    (tm : ℕ → Option ℚ) (workerIds : List ℕ) (year month : ℕ)
    (periodFirst : Bool) (draftAdjustments : ℕ → Option AdjustInput) :
    List DetailedLine :=
  generateReportData allWorkers liveLogs liveWds tm workerIds year month
    periodFirst draftAdjustments

/-! ### Rollup aggregator (AnnualSummaryView handleGenerateDraft) -/

/-- The stored `data` of a source bi-monthly report consumed by the rollup:
its workers, its period-filtered logs, and its attendance snapshot. -/
structure SourceReportData where
  workers : List Worker
  logs : List DailyLog
  allWorkedDays : List WorkedDaysEntry
deriving DecidableEq

/-- Insertion-ordered de-duplication, as `new Set(...)` iterates. -/
def uniqueIds (l : List ℕ) : List ℕ :=
  l.foldl (fun acc x => if acc.contains x then acc else acc ++ [x]) []

/-- Concatenation of the source reports' log arrays
(`sourceReports.flatMap(r => r.data.logs)`). -/
def concatLogs (rs : List SourceReportData) : List DailyLog :=
  rs.foldr (fun r acc => r.logs ++ acc) []

/-- Concatenation of the source reports' attendance arrays. -/
def concatWorkedDays (rs : List SourceReportData) : List WorkedDaysEntry :=
  rs.foldr (fun r acc => r.allWorkedDays ++ acc) []

/-- A line of `AnnualSummaryData` (grouping fields omitted: `groupName` and
`isHNS` only label sub-totals in the rendered table). -/
structure AnnualLine where
  workerId : ℕ
  totalOperation : ℚ
  anciennete : ℚ
  totalBrut : ℚ
  retenu : ℚ
  joursTravailles : ℚ
  indemnites : ℚ
  netPay : ℚ
deriving DecidableEq

/-- The per-worker body of `handleGenerateDraft` (AnnualSummaryView lines
85-104): total the worker's non-indemnity quantities across the combined
log list, then apply the derivation pipeline once over that combined base. -/
def annualLineOf (worker : Worker) (aggregatedLogs : List DailyLog)
    (aggregatedWorkedDays : List WorkedDaysEntry) (tm : ℕ → Option ℚ) :
    AnnualLine :=
  let workerLogs := aggregatedLogs.filter fun l => l.workerId == worker.id
  let joursTravailles := (aggregatedWorkedDays.filter
      fun wd => wd.workerId == worker.id).foldl (fun sum wd => sum + wd.days) 0
  let totalOperation := sumAmounts (workerLogs.filter fun log =>
    log.taskId != LAIT_TASK_ID && log.taskId != PANIER_TASK_ID) tm
  let anciennete := totalOperation * (worker.seniorityPercentage / 100)
  let totalBrut := totalOperation + anciennete
  let retenu := totalBrut * COMBINED_RATE
  let indemnites := joursTravailles *
    (priceOf tm LAIT_TASK_ID + priceOf tm PANIER_TASK_ID)
  let netPay := totalBrut - retenu + indemnites
  { workerId := worker.id, totalOperation := totalOperation,
    anciennete := anciennete, totalBrut := totalBrut, retenu := retenu,
    joursTravailles := joursTravailles, indemnites := indemnites,
    netPay := netPay }

/-- `processedData` of `handleGenerateDraft` (AnnualSummaryView lines
77-105): workers appearing in the selected source reports, derived over the
concatenated logs and attendance, keeping only lines with `netPay > 0`. -/
def annualSummaryData (allWorkers : List Worker) (tm : ℕ → Option ℚ)
    (sourceReports : List SourceReportData) : List AnnualLine :=
  let aggregatedLogs := concatLogs sourceReports
  let aggregatedWorkedDays := concatWorkedDays sourceReports
  let workerIdsWithActivity := uniqueIds
    (((sourceReports.map (·.workers)).flatten).map (·.id))
  (workerIdsWithActivity.filterMap fun workerId =>
    match allWorkers.find? (fun w => w.id == workerId) with
    | none => none
    | some worker =>
      some (annualLineOf worker aggregatedLogs aggregatedWorkedDays tm)).filter
    fun item => decide (0 < item.netPay)

/-- Per-period contribution of one source report to a worker's operational
total: the same filter-and-sum the rollup runs, restricted to that report's
own logs. -/
def periodTotalOperation (logs : List DailyLog) (tm : ℕ → Option ℚ) (w : ℕ) : ℚ :=
  sumAmounts ((logs.filter fun l => l.workerId == w).filter fun log =>
    log.taskId != LAIT_TASK_ID && log.taskId != PANIER_TASK_ID) tm

/-- Per-period contribution of one source report to a worker's days-worked
total. -/
def periodDays (wds : List WorkedDaysEntry) (w : ℕ) : ℚ :=
  (wds.filter fun wd => wd.workerId == w).foldl (fun sum wd => sum + wd.days) 0

/-! ### Concrete sample data used in scenario conjuncts and witnesses -/

/-- Sample price table: task 10 at 5.00, task 20 at 10.00, milk (37) at 8,
meal basket (47) at 12; all other ids missing. -/
def exTm : ℕ → Option ℚ := fun t =>
  if t = 10 then some 5 else if t = 20 then some 10
  else if t = 37 then some 8 else if t = 47 then some 12 else none

/-- Sample worker with 10% seniority. -/
def exWorker : Worker := ⟨1, "W", 10⟩

/-- Sample log: worker 1 logs 100 units of task 10 (priced 5.00). -/
def exLog : DailyLog := ⟨1, 10, 100, "2025-06-05", "own"⟩

/-- Sample log for a second period: worker 1 logs 30 units of task 20
(priced 10.00), so 300 of operational total. -/
def exLog2 : DailyLog := ⟨1, 20, 30, "2025-07-10", "own"⟩

/-- Sample log carrying an owner tag ("X") different from the worker's
owner of record ("Y" in `exGroups`). -/
def exLogX : DailyLog := ⟨1, 10, 100, "2025-06-05", "X"⟩

/-- Sample log with a negative quantity. -/
def negLog : DailyLog := ⟨1, 10, -100, "2025-06-05", "own"⟩

/-- Sample attendance: worker 1, June 2025 first half, 10 days. -/
def exWds : List WorkedDaysEntry := [⟨1, 2025, 6, true, 10, "own"⟩]

/-- Sample group list: worker 1 belongs to a group owned by "Y". -/
def exGroups : List WorkerGroup := [⟨"G", some "Y", [exWorker]⟩]

/-- Empty adjustment map (no `additionalInputs` entry for any worker). -/
def adjNone : ℕ → Option AdjustInput := fun _ => none

/-- Sample log against the milk indemnity task. -/
def exLog37 : DailyLog := ⟨1, 37, 5, "2025-06-02", "own"⟩

/-- Sample log against the meal-basket indemnity task. -/
def exLog47 : DailyLog := ⟨1, 47, 3, "2025-06-03", "own"⟩

/-- A second sample worker, with no activity in the sample logs. -/
def exWorker2 : Worker := ⟨2, "V", 5⟩

/-- A second sample attendance entry (July 2025 first half, 5 days). -/
def exWd2 : WorkedDaysEntry := ⟨1, 2025, 7, true, 5, "own"⟩

/-- The single entry of `exWds`, named for permutation witnesses. -/
def exWd1 : WorkedDaysEntry := ⟨1, 2025, 6, true, 10, "own"⟩

/-- A first sample source report for the rollup: period total 500. -/
def exReport1 : SourceReportData := ⟨[exWorker], [exLog], []⟩

/-- A second sample source report for the rollup: period total 300. -/
def exReport2 : SourceReportData := ⟨[exWorker], [exLog2], []⟩

/-! ### Helper lemmas -/

/-- A `reduce((s, x) => s + f x, init)` loop computes `init` plus the sum of
the mapped list. -/
theorem foldl_add_map_sum {α : Type} (f : α → ℚ) (l : List α) (init : ℚ) :
    l.foldl (fun s x => s + f x) init = init + (l.map f).sum := by
  induction l generalizing init with
  | nil => simp
  | cons a l ih => simp [List.foldl_cons, ih, add_assoc]

theorem sumAmounts_eq (logs : List DailyLog) (tm : ℕ → Option ℚ) :
    sumAmounts logs tm =
      (logs.map fun log => log.quantity * priceOf tm log.taskId).sum := by
  simpa using foldl_add_map_sum (fun log => log.quantity * priceOf tm log.taskId) logs 0

theorem sumAmounts_append (l1 l2 : List DailyLog) (tm : ℕ → Option ℚ) :
    sumAmounts (l1 ++ l2) tm = sumAmounts l1 tm + sumAmounts l2 tm := by
  simp [sumAmounts_eq]

theorem sumAmounts_cons (l : DailyLog) (ls : List DailyLog) (tm : ℕ → Option ℚ) :
    sumAmounts (l :: ls) tm =
      l.quantity * priceOf tm l.taskId + sumAmounts ls tm := by
  simp [sumAmounts_eq]

/-- Pointwise characterization of the quantity-accumulation loop: the value
in cell (w, t) is the sum of the quantities of the admitted entries keyed by
(w, t). -/
theorem accumulateQuantities_apply (cond : DailyLog → Bool)
    (logs : List DailyLog) (w t : ℕ) :
    accumulateQuantities cond logs w t =
      ((logs.filter fun log =>
        cond log && log.workerId == w && log.taskId == t).map (·.quantity)).sum := by
  suffices h : ∀ (acc : ℕ → ℕ → ℚ),
      (logs.foldl
        (fun acc log =>
          if cond log then
            fun w2 t2 => if w2 = log.workerId ∧ t2 = log.taskId
              then acc w2 t2 + log.quantity else acc w2 t2
          else acc) acc) w t
      = acc w t + ((logs.filter fun log =>
          cond log && log.workerId == w && log.taskId == t).map (·.quantity)).sum by
    simpa [accumulateQuantities] using h (fun _ _ => 0)
  induction logs with
  | nil => intro acc; simp
  | cons l ls ih =>
    intro acc
    rw [List.foldl_cons, ih, List.filter_cons]
    by_cases hc : cond l
    · by_cases hm : w = l.workerId ∧ t = l.taskId
      · obtain ⟨hw, ht⟩ := hm
        subst hw
        subst ht
        simp [hc, add_assoc]
      · have hm2 : ¬(l.workerId = w ∧ l.taskId = t) :=
          fun hx => hm ⟨hx.1.symm, hx.2.symm⟩
        simp [hc, hm, hm2]
    · have hcond : cond l = false := by simpa using hc
      simp [hcond]

/-- Pointwise characterization of the days-accumulation loop. -/
theorem accumulateDays_apply (cond : WorkedDaysEntry → Bool)
    (wds : List WorkedDaysEntry) (w : ℕ) :
    accumulateDays cond wds w =
      ((wds.filter fun wd => cond wd && wd.workerId == w).map (·.days)).sum := by
  suffices h : ∀ (acc : ℕ → ℚ),
      (wds.foldl
        (fun acc wd =>
          if cond wd then
            fun w2 => if w2 = wd.workerId then acc w2 + wd.days else acc w2
          else acc) acc) w
      = acc w + ((wds.filter fun wd =>
          cond wd && wd.workerId == w).map (·.days)).sum by
    simpa [accumulateDays] using h (fun _ => 0)
  induction wds with
  | nil => intro acc; simp
  | cons d ds ih =>
    intro acc
    rw [List.foldl_cons, ih, List.filter_cons]
    by_cases hc : cond d
    · by_cases hm : w = d.workerId
      · subst hm
        simp [hc, add_assoc]
      · have hm2 : ¬(d.workerId = w) := fun hx => hm hx.symm
        simp [hc, hm, hm2]
    · have hcond : cond d = false := by simpa using hc
      simp [hcond]

/-- `find?` returns the head of the filtered list. -/
theorem find?_eq_head?_filter {α : Type} (p : α → Bool) (l : List α) :
    l.find? p = (l.filter p).head? := by
  induction l with
  | nil => rfl
  | cons a l ih =>
    cases h : p a with
    | true => simp [List.find?_cons_of_pos _ h, List.filter_cons, h]
    | false =>
      have h2 : ¬p a = true := by simp [h]
      rw [List.find?_cons_of_neg _ h2, List.filter_cons, if_neg h2, ih]

/-- Two permuted lists with at most one element matching `p` have equal
`p`-filters. -/
theorem perm_filter_eq_of_length_le_one {α : Type} (p : α → Bool)
    {l1 l2 : List α} (hp : l1.Perm l2)
    (hlen : (l1.filter p).length ≤ 1) : l1.filter p = l2.filter p := by
  have hperm := hp.filter p
  match h1 : l1.filter p with
  | [] =>
    rw [h1] at hperm
    exact (hperm.nil_eq)
  | [a] =>
    rw [h1] at hperm
    exact ((List.singleton_perm).mp hperm).symm ▸ rfl
  | a :: b :: rest =>
    rw [h1] at hlen
    simp at hlen

/-- `filterMap` preserves length when the function succeeds on every
element. -/
theorem filterMap_length_of_isSome {α β : Type} {f : α → Option β}
    {l : List α} (h : ∀ a ∈ l, (f a).isSome) :
    (l.filterMap f).length = l.length := by
  induction l with
  | nil => rfl
  | cons a l ih =>
    have ha := h a (List.mem_cons_self a l)
    match hfa : f a with
    | none => rw [hfa] at ha; simp at ha
    | some b =>
      simp [List.filterMap_cons, hfa,
        ih (fun x hx => h x (List.mem_cons_of_mem a hx))]

theorem periodTotalOperation_append (l1 l2 : List DailyLog)
    (tm : ℕ → Option ℚ) (w : ℕ) :
    periodTotalOperation (l1 ++ l2) tm w =
      periodTotalOperation l1 tm w + periodTotalOperation l2 tm w := by
  simp [periodTotalOperation, List.filter_append, sumAmounts_append]

theorem periodDays_append (l1 l2 : List WorkedDaysEntry) (w : ℕ) :
    periodDays (l1 ++ l2) w = periodDays l1 w + periodDays l2 w := by
  simp only [periodDays, List.filter_append,
    foldl_add_map_sum (fun wd : WorkedDaysEntry => wd.days)]
  simp [add_assoc]

/-- The empty or missing adjustment string parses to 0 through the
`parseFloat(value || '0') || 0` fallback chain. -/
theorem parseAdjField_none_eq : parseAdjField none = 0 := by
  have h : parseAdjField none = (1 : ℚ) * ((0 : ℕ) : ℚ) := rfl
  rw [h]
  norm_num

theorem periodTotalOperation_concat (rs : List SourceReportData)
    (tm : ℕ → Option ℚ) (w : ℕ) :
    periodTotalOperation (concatLogs rs) tm w =
      (rs.map fun r => periodTotalOperation r.logs tm w).sum := by
  induction rs with
  | nil => simp [concatLogs, periodTotalOperation, sumAmounts]
  | cons r rs ih =>
    have hcons : concatLogs (r :: rs) = r.logs ++ concatLogs rs := rfl
    rw [hcons, periodTotalOperation_append, ih, List.map_cons, List.sum_cons]

theorem periodDays_concat (rs : List SourceReportData) (w : ℕ) :
    periodDays (concatWorkedDays rs) w =
      (rs.map fun r => periodDays r.allWorkedDays w).sum := by
  induction rs with
  | nil => simp [concatWorkedDays, periodDays]
  | cons r rs ih =>
    have hcons : concatWorkedDays (r :: rs) = r.allWorkedDays ++ concatWorkedDays rs := rfl
    rw [hcons, periodDays_append, ih, List.map_cons, List.sum_cons]

/-! ### Claim theorems -/

/-- C1: for every worker line produced by the financial derivation pipeline
(both the payroll derivation and the transfer-order derivation of
`handleSave`), `anciennete = totalOperation * seniorityPercentage / 100`,
`totalBrut = totalOperation + anciennete + jourFerier` and
`retenu = totalBrut * 0.0674`; and on the scenario inputs (seniority 10%,
100 units of a task priced 5.00, 10 days worked, milk price 8, basket price
12, advance 0) the pipeline yields `totalOperation = 500`,
`anciennete = 50`, `totalBrut = 550`, `retenu = 37.07` and
`netPay = 712.93`. -/
theorem claim_C1 :
    (∀ (logs : List DailyLog) (tm : ℕ → Option ℚ) (days : ℚ) (w : Worker),
      (payrollLineOf logs tm days w).anciennete =
        (payrollLineOf logs tm days w).totalOperation *
          (w.seniorityPercentage / 100) ∧
      (payrollLineOf logs tm days w).totalBrut =
        (payrollLineOf logs tm days w).totalOperation +
          (payrollLineOf logs tm days w).anciennete +
          (payrollLineOf logs tm days w).jourFerier ∧
      (payrollLineOf logs tm days w).retenu =
        (payrollLineOf logs tm days w).totalBrut * (0.0674 : ℚ) ∧
      (transferCalcOf logs tm days w).anciennete =
        (transferCalcOf logs tm days w).totalOperation *
          (w.seniorityPercentage / 100) ∧
      (transferCalcOf logs tm days w).totalBrut =
        (transferCalcOf logs tm days w).totalOperation +
          (transferCalcOf logs tm days w).anciennete +
          (transferCalcOf logs tm days w).jourFerier ∧
      (transferCalcOf logs tm days w).retenu =
        (transferCalcOf logs tm days w).totalBrut * (0.0674 : ℚ) ∧
      (transferCalcOf logs tm days w).netPay =
        (transferCalcOf logs tm days w).totalBrut -
          (transferCalcOf logs tm days w).retenu +
          (transferCalcOf logs tm days w).indemniteLait +
          (transferCalcOf logs tm days w).primePanier) ∧
    ((payrollLineOf [exLog] exTm 10 exWorker).totalOperation = 500 ∧
     (payrollLineOf [exLog] exTm 10 exWorker).anciennete = 50 ∧
     (payrollLineOf [exLog] exTm 10 exWorker).jourFerier = 0 ∧
     (payrollLineOf [exLog] exTm 10 exWorker).totalBrut = 550 ∧
     (payrollLineOf [exLog] exTm 10 exWorker).retenu = 37.07 ∧
     (transferCalcOf [exLog] exTm 10 exWorker).indemniteLait = 80 ∧
     (transferCalcOf [exLog] exTm 10 exWorker).primePanier = 120 ∧
     (transferCalcOf [exLog] exTm 10 exWorker).netPay = 712.93) := by
  constructor
  · intro logs tm days w
    exact ⟨rfl, rfl, rfl, rfl, rfl, rfl, rfl⟩
  · refine ⟨?_, ?_, rfl, ?_, ?_, ?_, ?_, ?_⟩ <;>
    · simp [payrollLineOf, transferCalcOf, upsertTask, sumAmounts, priceOf,
        exTm, exLog, exWorker, LAIT_TASK_ID, PANIER_TASK_ID, COMBINED_RATE,
        List.find?]
      norm_num

/-- C4: the split withholding policy agrees with the combined policy: the
rates satisfy `0.0448 + 0.0226 = 0.0674`, and every detailed payroll line
has `retCnss + retAmo = total * 0.0674`, the figure the combined-rate
policy computes from the same withholding base. -/
theorem claim_C4 :
    RET_CNSS_RATE + RET_AMO_RATE = (0.0674 : ℚ) ∧
    ∀ (worker : Worker) (workerLogs : List DailyLog) (tm : ℕ → Option ℚ)
      (days : ℚ) (av irv : Option String),
      (detailedLineOf worker workerLogs tm days av irv).retCnss +
        (detailedLineOf worker workerLogs tm days av irv).retAmo =
      (detailedLineOf worker workerLogs tm days av irv).total * (0.0674 : ℚ) := by
  constructor
  · norm_num [RET_CNSS_RATE, RET_AMO_RATE]
  · intro worker workerLogs tm days av irv
    show (detailedLineOf worker workerLogs tm days av irv).total * RET_CNSS_RATE +
        (detailedLineOf worker workerLogs tm days av irv).total * RET_AMO_RATE =
      (detailedLineOf worker workerLogs tm days av irv).total * (0.0674 : ℚ)
    rw [← mul_add]
    norm_num [RET_CNSS_RATE, RET_AMO_RATE]

/-- C6: quantities logged against the milk (37) and meal-basket (47) task
ids never contribute to the operational total: if every log carries one of
the two indemnity ids, the detailed payroll line has `montant = 0` and
`netAPayer = daysWorked * (laitPrice + panierPrice) - advance` (with zero
withholding), and the annual rollup line has `totalOperation = 0` and
`netPay = daysWorked * (laitPrice + panierPrice)`; indemnities are computed
solely as days-worked times unit price. -/
theorem claim_C6 :
    (∀ (worker : Worker) (workerLogs : List DailyLog) (tm : ℕ → Option ℚ)
        (days : ℚ) (av irv : Option String),
      (∀ l ∈ workerLogs, l.taskId = LAIT_TASK_ID ∨ l.taskId = PANIER_TASK_ID) →
      parseAdjField irv = 0 →
      (detailedLineOf worker workerLogs tm days av irv).montant = 0 ∧
      (detailedLineOf worker workerLogs tm days av irv).netAPayer =
        days * (priceOf tm LAIT_TASK_ID + priceOf tm PANIER_TASK_ID) -
          parseAdjField av) ∧
    (∀ (worker : Worker) (aggLogs : List DailyLog)
        (aggWds : List WorkedDaysEntry) (tm : ℕ → Option ℚ),
      (∀ l ∈ aggLogs, l.taskId = LAIT_TASK_ID ∨ l.taskId = PANIER_TASK_ID) →
      (annualLineOf worker aggLogs aggWds tm).totalOperation = 0 ∧
      (annualLineOf worker aggLogs aggWds tm).netPay =
        (annualLineOf worker aggLogs aggWds tm).joursTravailles *
          (priceOf tm LAIT_TASK_ID + priceOf tm PANIER_TASK_ID)) := by
  constructor
  · intro worker workerLogs tm days av irv hind hir
    have hnil : (workerLogs.filter fun log =>
        log.taskId != LAIT_TASK_ID && log.taskId != PANIER_TASK_ID) = [] := by
      rw [List.filter_eq_nil_iff]
      intro l hl
      rcases hind l hl with h | h <;> simp [h]
    constructor
    · show sumAmounts (workerLogs.filter fun log =>
        log.taskId != LAIT_TASK_ID && log.taskId != PANIER_TASK_ID) tm = 0
      rw [hnil]
      rfl
    · show sumAmounts _ tm + _ * (worker.seniorityPercentage / 100) +
          days * priceOf tm LAIT_TASK_ID + days * priceOf tm PANIER_TASK_ID -
          _ * RET_CNSS_RATE - _ * RET_AMO_RATE - parseAdjField av -
          parseAdjField irv = _
      rw [hnil, hir]
      show (0 : ℚ) + 0 * (worker.seniorityPercentage / 100) +
          days * priceOf tm LAIT_TASK_ID + days * priceOf tm PANIER_TASK_ID -
          (0 + 0 * (worker.seniorityPercentage / 100)) * RET_CNSS_RATE -
          (0 + 0 * (worker.seniorityPercentage / 100)) * RET_AMO_RATE -
          parseAdjField av - 0 = _
      ring
  · intro worker aggLogs aggWds tm hind
    have hnil : ((aggLogs.filter fun l => l.workerId == worker.id).filter
        fun log => log.taskId != LAIT_TASK_ID && log.taskId != PANIER_TASK_ID) = [] := by
      rw [List.filter_eq_nil_iff]
      intro l hl
      rcases hind l (List.mem_of_mem_filter hl) with h | h <;> simp [h]
    constructor
    · show sumAmounts ((aggLogs.filter fun l => l.workerId == worker.id).filter
        fun log => log.taskId != LAIT_TASK_ID && log.taskId != PANIER_TASK_ID) tm = 0
      rw [hnil]
      rfl
    · show sumAmounts _ tm + _ * (worker.seniorityPercentage / 100) -
          (sumAmounts _ tm + _ * (worker.seniorityPercentage / 100)) *
            COMBINED_RATE + _ *
            (priceOf tm LAIT_TASK_ID + priceOf tm PANIER_TASK_ID) = _
      rw [hnil]
      show (0:ℚ) + 0 * (worker.seniorityPercentage / 100) -
          ((0:ℚ) + 0 * (worker.seniorityPercentage / 100)) * COMBINED_RATE +
          (annualLineOf worker aggLogs aggWds tm).joursTravailles *
            (priceOf tm LAIT_TASK_ID + priceOf tm PANIER_TASK_ID) = _
      ring

/-- Witness for C6: a concrete indemnity-only log set (5 milk units, 3
basket units), 10 days worked, a 50.00 advance and an absent IR input yield
`montant = 0` and `netAPayer = 10 * (8 + 12) - 50`. -/
theorem claim_C6_witness :
    (∀ l ∈ [exLog37, exLog47],
      l.taskId = LAIT_TASK_ID ∨ l.taskId = PANIER_TASK_ID) ∧
    parseAdjField (none : Option String) = 0 ∧
    (detailedLineOf exWorker [exLog37, exLog47] exTm 10 (some "50") none).montant = 0 ∧
    (detailedLineOf exWorker [exLog37, exLog47] exTm 10 (some "50") none).netAPayer =
      10 * (priceOf exTm LAIT_TASK_ID + priceOf exTm PANIER_TASK_ID) -
        parseAdjField (some "50") :=
  ⟨by decide, parseAdjField_none_eq,
    (claim_C6.1 exWorker [exLog37, exLog47] exTm 10 (some "50") none
      (by decide) parseAdjField_none_eq).1,
    (claim_C6.1 exWorker [exLog37, exLog47] exTm 10 (some "50") none
      (by decide) parseAdjField_none_eq).2⟩

/-- C9: the formula pipeline is a total function over its numeric inputs: a
task id absent from the price table is priced 0 and its logs contribute
nothing (never an error), the detailed payroll fields are defined by the
arithmetic formulas for every rational input, and on a concrete
negative-quantity, negative-advance input the values propagate
arithmetically (no clamping, no failure). -/
theorem claim_C9 :
    (∀ (tm : ℕ → Option ℚ) (t : ℕ), tm t = none → priceOf tm t = 0) ∧
    (∀ (log : DailyLog) (logs : List DailyLog) (tm : ℕ → Option ℚ),
      tm log.taskId = none →
      sumAmounts (log :: logs) tm = sumAmounts logs tm) ∧
    (∀ (worker : Worker) (workerLogs : List DailyLog) (tm : ℕ → Option ℚ)
        (days : ℚ) (av irv : Option String),
      (detailedLineOf worker workerLogs tm days av irv).total =
        (detailedLineOf worker workerLogs tm days av irv).montant +
          (detailedLineOf worker workerLogs tm days av irv).anciennete ∧
      (detailedLineOf worker workerLogs tm days av irv).netAPayer =
        (detailedLineOf worker workerLogs tm days av irv).total +
          (detailedLineOf worker workerLogs tm days av irv).indemLait +
          (detailedLineOf worker workerLogs tm days av irv).primePanier -
          (detailedLineOf worker workerLogs tm days av irv).retCnss -
          (detailedLineOf worker workerLogs tm days av irv).retAmo -
          (detailedLineOf worker workerLogs tm days av irv).avanceAid -
          (detailedLineOf worker workerLogs tm days av irv).ir) ∧
    ((detailedLineOf exWorker [negLog] exTm 10 (some "-50") (some "0")).montant
        = -500 ∧
     (detailedLineOf exWorker [negLog] exTm 10 (some "-50") (some "0")).avanceAid
        = -50 ∧
     (detailedLineOf exWorker [negLog] exTm 10 (some "-50") (some "0")).netAPayer
        = -262.93) := by
  refine ⟨?_, ?_, ?_, ?_⟩
  · intro tm t h
    simp [priceOf, h]
  · intro log logs tm h
    rw [sumAmounts_cons]
    simp [priceOf, h]
  · intro worker workerLogs tm days av irv
    exact ⟨rfl, rfl⟩
  · have hav : parseAdjField (some "-50") = (-1 : ℚ) * ((50 : ℕ) : ℚ) := rfl
    have hir : parseAdjField (some "0") = (1 : ℚ) * ((0 : ℕ) : ℚ) := rfl
    refine ⟨?_, ?_, ?_⟩ <;>
    · norm_num [detailedLineOf, sumAmounts, priceOf, exTm, negLog, exWorker,
        LAIT_TASK_ID, PANIER_TASK_ID, RET_CNSS_RATE, RET_AMO_RATE, hav, hir]

/-- Witness for C9: the sample price table has no entry for task 99, the
fallback price is 0, and a log against task 99 leaves the operational sum
unchanged. -/
theorem claim_C9_witness :
    exTm 99 = none ∧ priceOf exTm 99 = 0 ∧
    sumAmounts [⟨1, 99, 7, "2025-06-04", "own"⟩] exTm = sumAmounts [] exTm :=
  ⟨by decide, claim_C9.1 exTm 99 (by decide),
    claim_C9.2.1 ⟨1, 99, 7, "2025-06-04", "own"⟩ [] exTm (by decide)⟩

/-- C10: adjustment fields arrive as strings; an entry that is missing,
empty, or non-numeric is treated as exactly 0 by the parse-failure
fallbacks, and the recomputed `totalBrut`/`retenu` are always the
well-defined rationals given by the formulas, whatever the input strings. -/
theorem claim_C10 :
    (∀ v : Option String,
      (v = none ∨ v = some "" ∨ ∃ s, v = some s ∧ jsParseFloat s = none) →
      parseAdjField v = 0 ∧ parseJourFerierInput v = 0) ∧
    (∀ (adj : ℕ → Option String) (d : PayrollLine),
      (recomputePayrollLine adj d).totalBrut =
        d.totalOperation + d.anciennete +
          parseJourFerierInput (adj d.workerId) ∧
      (recomputePayrollLine adj d).retenu =
        (recomputePayrollLine adj d).totalBrut * COMBINED_RATE) := by
  constructor
  · intro v hv
    have hempty : parseAdjField (some "") = 0 := parseAdjField_none_eq
    rcases hv with rfl | rfl | ⟨s, rfl, hs⟩
    · exact ⟨parseAdjField_none_eq, rfl⟩
    · exact ⟨hempty, rfl⟩
    · by_cases hse : s = ""
      · subst hse
        exact ⟨hempty, rfl⟩
      · constructor
        · simp [parseAdjField, hse, hs]
        · simp [parseJourFerierInput, hse, hs]
  · intro adj d
    exact ⟨rfl, rfl⟩

/-- Witness for C10: the non-numeric string "abc" parses to NaN and both
parse paths fall back to 0. -/
theorem claim_C10_witness :
    jsParseFloat "abc" = none ∧
    parseAdjField (some "abc") = 0 ∧ parseJourFerierInput (some "abc") = 0 :=
  ⟨by decide,
    (claim_C10.1 (some "abc") (Or.inr (Or.inr ⟨"abc", rfl, by decide⟩))).1,
    (claim_C10.1 (some "abc") (Or.inr (Or.inr ⟨"abc", rfl, by decide⟩))).2⟩

/-- C2 (amended): only the season aggregation applies the owner-of-record
test: an entry whose owner tag does not match the worker's current owner of
record contributes nothing to the season totals, while the bi-monthly log
filter admits every entry in the date range for a selected worker,
regardless of its owner tag. -/
theorem claim_C2 :
    (∀ (groups : List WorkerGroup) (startDate endDate : String)
        (logs : List DailyLog) (log : DailyLog),
      workerOwnerMap groups log.workerId ≠ some log.owner →
      ∀ w t, seasonTaskTotals groups (log :: logs) startDate endDate w t =
        seasonTaskTotals groups logs startDate endDate w t) ∧
    (∀ (allLogs : List DailyLog) (startDateStr endDateStr : String)
        (ids : List ℕ) (log : DailyLog),
      log ∈ allLogs → strLe startDateStr log.date = true →
      strLe log.date endDateStr = true →
      ids.contains log.workerId = true →
      log ∈ logsForReport allLogs startDateStr endDateStr ids) := by
  constructor
  · intro groups startDate endDate logs log howner w t
    have hcond : seasonLogCond groups log = false := by
      have : (workerOwnerMap groups log.workerId == some log.owner) = false := by
        simpa using howner
      simp [seasonLogCond, this]
    unfold seasonTaskTotals
    rw [List.filter_cons]
    by_cases hdate : (strLe startDate log.date && strLe log.date endDate) = true
    · rw [if_pos hdate]
      simp [accumulateQuantities, List.foldl_cons, hcond]
    · rw [if_neg hdate]
  · intro allLogs startDateStr endDateStr ids log hmem h1 h2 h3
    rw [logsForReport, List.mem_filter]
    refine ⟨hmem, ?_⟩
    simp [h1, h2]
    simpa using h3

/-- Witness for C2: with the sample group (worker 1 owned by "Y"), the
owner-mismatched entry `exLogX` (owner "X") contributes nothing to the
season totals, and the in-range log `exLog` is admitted by the bi-monthly
filter. -/
theorem claim_C2_witness :
    (workerOwnerMap exGroups exLogX.workerId ≠ some exLogX.owner) ∧
    (seasonTaskTotals exGroups [exLogX] "2025-05-01" "2026-04-30" 1 10 =
      seasonTaskTotals exGroups [] "2025-05-01" "2026-04-30" 1 10) ∧
    (exLog ∈ logsForReport [exLog] "2025-06-01" "2025-06-15" [1]) :=
  ⟨by decide,
    claim_C2.1 exGroups "2025-05-01" "2026-04-30" [] exLogX (by decide) 1 10,
    claim_C2.2 [exLog] "2025-06-01" "2025-06-15" [1] exLog
      (List.mem_singleton.mpr rfl) (by decide) (by decide) (by decide)⟩

/-- Counterexample for C2 as stated: the bi-monthly aggregation does not
apply the owner test.  Worker 1's owner of record is "Y", yet the entry
`exLogX` tagged with owner "X" passes the bi-monthly log filter and its 100
units land in the worker's task totals (exclusion would have left 0). -/
theorem claim_C2_counterexample :
    workerOwnerMap exGroups 1 = some "Y" ∧ exLogX.owner = "X" ∧
    reportDataMap (logsForReport [exLogX] "2025-06-01" "2025-06-15" [1]) 1 10 =
      100 ∧ (100 : ℚ) ≠ 0 := by
  refine ⟨by decide, rfl, ?_, by norm_num⟩
  have hf : logsForReport [exLogX] "2025-06-01" "2025-06-15" [1] = [exLogX] := by
    decide
  rw [hf]
  norm_num [reportDataMap, accumulateQuantities, exLogX]

/-- C3 (amended): the payroll adjustment recomputation
(PayrollView.handleSaveAdjustments) reads only the snapshot's stored lines
and leaves `totalOperation`, `anciennete` and `joursTravailles` of every
line unchanged, recomputing only `jourFerier`, `totalBrut` and `retenu`;
the detailed payroll adjustment recomputation, by contrast, re-runs
`generateReportData` over the live log and attendance collections, so its
`totalOperation` (montant) tracks the live logs rather than the stored
aggregation. -/
theorem claim_C3 :
    (∀ (adj : ℕ → Option String) (d : PayrollLine),
      (recomputePayrollLine adj d).totalOperation = d.totalOperation ∧
      (recomputePayrollLine adj d).anciennete = d.anciennete ∧
      (recomputePayrollLine adj d).joursTravailles = d.joursTravailles) ∧
    (∀ (adj : ℕ → Option String) (data : List PayrollLine),
      (handleSaveAdjustmentsPayroll adj data).map (·.totalOperation) =
        data.map (·.totalOperation) ∧
      (handleSaveAdjustmentsPayroll adj data).map (·.anciennete) =
        data.map (·.anciennete) ∧
      (handleSaveAdjustmentsPayroll adj data).map (·.joursTravailles) =
        data.map (·.joursTravailles)) ∧
    (∀ (allWorkers : List Worker) (liveLogs : List DailyLog)
        (liveWds : List WorkedDaysEntry) (tm : ℕ → Option ℚ)
        (workerIds : List ℕ) (year month : ℕ) (periodFirst : Bool)
        (adj : ℕ → Option AdjustInput),
      handleSaveAdjustmentsDetailed allWorkers liveLogs liveWds tm workerIds
        year month periodFirst adj =
      generateReportData allWorkers liveLogs liveWds tm workerIds year month
        periodFirst adj) := by
  refine ⟨fun adj d => ⟨rfl, rfl, rfl⟩, fun adj data => ⟨?_, ?_, ?_⟩,
    fun _ _ _ _ _ _ _ _ _ => rfl⟩ <;>
    simp [handleSaveAdjustmentsPayroll, List.map_map, Function.comp,
      recomputePayrollLine]

/-- Counterexample for C3 as stated: the detailed payroll recomputation
does consult the live log collection.  A snapshot created from one 100-unit
log stores a line with `montant = 500`; re-running the adjustment
recomputation after the live logs have been emptied produces
`montant = 0`, so `totalOperation` was not left unchanged. -/
theorem claim_C3_counterexample :
    (generateReportData [exWorker] [exLog] exWds exTm [1] 2025 6 true
      adjNone).map (·.montant) = [500] ∧
    (handleSaveAdjustmentsDetailed [exWorker] [] exWds exTm [1] 2025 6 true
      adjNone).map (·.montant) = [0] ∧
    (500 : ℚ) ≠ 0 := by
  have hw : [exWorker].find? (fun w => w.id == 1) = some exWorker := by decide
  have hd : getDaysWorked exWds 1 2025 6 true = 10 := by decide
  refine ⟨?_, ?_, by norm_num⟩
  · have h1 : generateReportData [exWorker] [exLog] exWds exTm [1] 2025 6 true
        adjNone = [detailedLineOf exWorker [exLog] exTm 10 none none] := by
      simp [generateReportData, List.filterMap, hw, hd, adjNone]
      congr 1
    rw [h1]
    norm_num [detailedLineOf, sumAmounts, priceOf, exTm, exLog,
      LAIT_TASK_ID, PANIER_TASK_ID]
  · have h2 : handleSaveAdjustmentsDetailed [exWorker] [] exWds exTm [1] 2025 6
        true adjNone = [detailedLineOf exWorker [] exTm 10 none none] := by
      simp [handleSaveAdjustmentsDetailed, generateReportData, List.filterMap,
        hw, hd, adjNone]
    rw [h2]
    norm_num [detailedLineOf, sumAmounts, priceOf, exTm,
      LAIT_TASK_ID, PANIER_TASK_ID]

/-- C5 (amended): a worker in scope with zero activity and zero days-worked
still yields a valid all-zero line; the payroll keeps one line per
requested worker and the detailed payroll keeps every requested worker
found in the roster, while BOTH the annual rollup and the transfer order
drop lines whose `netPay <= 0`. -/
theorem claim_C5 :
    (∀ (draftLogs : List DailyLog) (wds : List WorkedDaysEntry)
        (tm : ℕ → Option ℚ) (year month : ℕ) (periodFirst : Bool)
        (workers : List Worker),
      (payrollData draftLogs wds tm year month periodFirst workers).length =
        workers.length) ∧
    (∀ (allWorkers : List Worker) (allLogs : List DailyLog)
        (wds : List WorkedDaysEntry) (tm : ℕ → Option ℚ)
        (workerIds : List ℕ) (year month : ℕ) (periodFirst : Bool)
        (inputs : ℕ → Option AdjustInput),
      (∀ id ∈ workerIds, (allWorkers.find? (fun w => w.id == id)).isSome) →
      (generateReportData allWorkers allLogs wds tm workerIds year month
        periodFirst inputs).length = workerIds.length) ∧
    (∀ (draftLogs : List DailyLog) (wds : List WorkedDaysEntry)
        (tm : ℕ → Option ℚ) (year month : ℕ) (periodFirst : Bool)
        (workers : List Worker),
      (transferOrderData draftLogs wds tm year month periodFirst
        workers).all (fun item => decide (0 < item.2)) = true) ∧
    (∀ (allWorkers : List Worker) (tm : ℕ → Option ℚ)
        (sourceReports : List SourceReportData),
      (annualSummaryData allWorkers tm sourceReports).all
        (fun item => decide (0 < item.netPay)) = true) ∧
    (∀ (draftLogs : List DailyLog) (tm : ℕ → Option ℚ) (w : Worker),
      (∀ l ∈ draftLogs, l.workerId ≠ w.id) →
      (payrollLineOf draftLogs tm 0 w).totalOperation = 0 ∧
      (payrollLineOf draftLogs tm 0 w).anciennete = 0 ∧
      (payrollLineOf draftLogs tm 0 w).jourFerier = 0 ∧
      (payrollLineOf draftLogs tm 0 w).totalBrut = 0 ∧
      (payrollLineOf draftLogs tm 0 w).retenu = 0 ∧
      (payrollLineOf draftLogs tm 0 w).joursTravailles = 0) := by
  refine ⟨?_, ?_, ?_, ?_, ?_⟩
  · intro draftLogs wds tm year month periodFirst workers
    simp [payrollData]
  · intro allWorkers allLogs wds tm workerIds year month periodFirst inputs h
    apply filterMap_length_of_isSome
    intro id hid
    obtain ⟨w, hw⟩ := Option.isSome_iff_exists.mp (h id hid)
    simp only [hw]
    rfl
  · intro draftLogs wds tm year month periodFirst workers
    rw [List.all_eq_true]
    intro item hitem
    unfold transferOrderData at hitem
    rw [List.mem_filter] at hitem
    exact hitem.2
  · intro allWorkers tm sourceReports
    rw [List.all_eq_true]
    intro item hitem
    unfold annualSummaryData at hitem
    rw [List.mem_filter] at hitem
    exact hitem.2
  · intro draftLogs tm w hnone
    have hfil : (draftLogs.filter fun l => l.workerId == w.id) = [] := by
      rw [List.filter_eq_nil_iff]
      intro l hl
      simpa using hnone l hl
    have htop : (payrollLineOf draftLogs tm 0 w).totalOperation = 0 := by
      show ((((draftLogs.filter fun l => l.workerId == w.id).filter fun log =>
          log.taskId != LAIT_TASK_ID && log.taskId != PANIER_TASK_ID).foldl
          (fun acc log =>
            match tm log.taskId with
            | none => acc
            | some _ => upsertTask acc log.taskId log.quantity) []).map
          (fun p => (p.1, p.2, p.2 * priceOf tm p.1))).foldl
          (fun sum task => sum + task.2.2) 0 = 0
      rw [hfil]
      rfl
    refine ⟨htop, ?_, rfl, ?_, ?_, rfl⟩
    · show (payrollLineOf draftLogs tm 0 w).totalOperation *
        (w.seniorityPercentage / 100) = 0
      rw [htop]
      ring
    · show (payrollLineOf draftLogs tm 0 w).totalOperation +
        (payrollLineOf draftLogs tm 0 w).totalOperation *
          (w.seniorityPercentage / 100) + 0 = 0
      rw [htop]
      ring
    · show ((payrollLineOf draftLogs tm 0 w).totalOperation +
        (payrollLineOf draftLogs tm 0 w).totalOperation *
          (w.seniorityPercentage / 100) + 0) * COMBINED_RATE = 0
      rw [htop]
      ring

/-- Witness for C5: worker 1 resolves in the roster so the detailed report
keeps its single requested worker, and worker 2 (no activity in `[exLog]`)
still gets an all-zero payroll line. -/
theorem claim_C5_witness :
    (∀ id ∈ [1], (([exWorker].find? (fun w => w.id == id)).isSome)) ∧
    (generateReportData [exWorker] [exLog] exWds exTm [1] 2025 6 true
      adjNone).length = [1].length ∧
    (∀ l ∈ [exLog], l.workerId ≠ exWorker2.id) ∧
    (payrollLineOf [exLog] exTm 0 exWorker2).totalOperation = 0 ∧
    (payrollLineOf [exLog] exTm 0 exWorker2).retenu = 0 :=
  ⟨by decide,
    claim_C5.2.1 [exWorker] [exLog] exWds exTm [1] 2025 6 true adjNone
      (by decide),
    by decide,
    (claim_C5.2.2.2.2 [exLog] exTm exWorker2 (by decide)).1,
    (claim_C5.2.2.2.2 [exLog] exTm exWorker2 (by decide)).2.2.2.2.1⟩

/-- Counterexample for C5 as stated: the transfer order does NOT keep all
requested workers.  A requested worker with no logs and no days derives
`netPay = 0`, and the transfer-order filter `netPay > 0` drops the line:
the output is empty although one worker was requested. -/
theorem claim_C5_counterexample :
    transferOrderData [] [] exTm 2025 6 true [exWorker] = [] ∧
    [exWorker].length = 1 := by
  refine ⟨?_, rfl⟩
  have hnp : (transferCalcOf [] exTm (getDaysWorked [] exWorker.id 2025 6 true)
      exWorker).netPay = 0 := by
    norm_num [transferCalcOf, sumAmounts, getDaysWorked, priceOf, exTm,
      exWorker, COMBINED_RATE, LAIT_TASK_ID, PANIER_TASK_ID]
  simp [transferOrderData, hnp]

/-- C7: the rollup aggregator first sums each worker's operational total
across all contributing source reports and then runs the derivation
pipeline exactly once over that combined base (likewise days-worked feed
one indemnity computation); on the scenario with period totals 500 and
300, the combined base is 800 and `anciennete`/`totalBrut`/`retenu`/
`netPay` are derived from 800, not summed from per-period nets. -/
theorem claim_C7 :
    (∀ (worker : Worker) (tm : ℕ → Option ℚ) (rs : List SourceReportData),
      (annualLineOf worker (concatLogs rs) (concatWorkedDays rs)
        tm).totalOperation =
        (rs.map fun r => periodTotalOperation r.logs tm worker.id).sum ∧
      (annualLineOf worker (concatLogs rs) (concatWorkedDays rs)
        tm).joursTravailles =
        (rs.map fun r => periodDays r.allWorkedDays worker.id).sum ∧
      (annualLineOf worker (concatLogs rs) (concatWorkedDays rs) tm).anciennete =
        (annualLineOf worker (concatLogs rs) (concatWorkedDays rs)
          tm).totalOperation * (worker.seniorityPercentage / 100) ∧
      (annualLineOf worker (concatLogs rs) (concatWorkedDays rs) tm).totalBrut =
        (annualLineOf worker (concatLogs rs) (concatWorkedDays rs)
          tm).totalOperation +
        (annualLineOf worker (concatLogs rs) (concatWorkedDays rs)
          tm).anciennete ∧
      (annualLineOf worker (concatLogs rs) (concatWorkedDays rs) tm).retenu =
        (annualLineOf worker (concatLogs rs) (concatWorkedDays rs)
          tm).totalBrut * COMBINED_RATE ∧
      (annualLineOf worker (concatLogs rs) (concatWorkedDays rs) tm).indemnites =
        (annualLineOf worker (concatLogs rs) (concatWorkedDays rs)
          tm).joursTravailles *
          (priceOf tm LAIT_TASK_ID + priceOf tm PANIER_TASK_ID) ∧
      (annualLineOf worker (concatLogs rs) (concatWorkedDays rs) tm).netPay =
        (annualLineOf worker (concatLogs rs) (concatWorkedDays rs)
          tm).totalBrut -
        (annualLineOf worker (concatLogs rs) (concatWorkedDays rs) tm).retenu +
        (annualLineOf worker (concatLogs rs) (concatWorkedDays rs)
          tm).indemnites) ∧
    (periodTotalOperation exReport1.logs exTm 1 = 500 ∧
     periodTotalOperation exReport2.logs exTm 1 = 300 ∧
     (annualLineOf exWorker (concatLogs [exReport1, exReport2])
       (concatWorkedDays [exReport1, exReport2]) exTm).totalOperation = 800 ∧
     (annualLineOf exWorker (concatLogs [exReport1, exReport2])
       (concatWorkedDays [exReport1, exReport2]) exTm).anciennete = 80 ∧
     (annualLineOf exWorker (concatLogs [exReport1, exReport2])
       (concatWorkedDays [exReport1, exReport2]) exTm).totalBrut = 880 ∧
     (annualLineOf exWorker (concatLogs [exReport1, exReport2])
       (concatWorkedDays [exReport1, exReport2]) exTm).retenu = 59.312 ∧
     (annualLineOf exWorker (concatLogs [exReport1, exReport2])
       (concatWorkedDays [exReport1, exReport2]) exTm).netPay = 820.688) := by
  constructor
  · intro worker tm rs
    refine ⟨?_, ?_, rfl, rfl, rfl, rfl, rfl⟩
    · show periodTotalOperation (concatLogs rs) tm worker.id = _
      exact periodTotalOperation_concat rs tm worker.id
    · show periodDays (concatWorkedDays rs) worker.id = _
      exact periodDays_concat rs worker.id
  · refine ⟨?_, ?_, ?_, ?_, ?_, ?_, ?_⟩ <;>
    · norm_num [annualLineOf, periodTotalOperation, concatLogs,
        concatWorkedDays, sumAmounts, priceOf, exTm, exLog, exLog2, exWorker,
        exReport1, exReport2, COMBINED_RATE, LAIT_TASK_ID, PANIER_TASK_ID]

/-- C8: the aggregation engines are order-independent: permuting the
activity-log collection leaves the season task totals and the bi-monthly
`dataMap` totals unchanged at every (worker, task) cell, and permuting the
attendance collection leaves the season days totals unchanged (for the
bi-monthly `find?`-based days lookup, under the data-model invariant of at
most one entry per key). -/
theorem claim_C8 :
    ∀ (groups : List WorkerGroup) (startDate endDate : String)
      (startYear : ℕ) (l1 l2 : List DailyLog)
      (wds1 wds2 : List WorkedDaysEntry),
      l1.Perm l2 → wds1.Perm wds2 →
      (∀ w t, seasonTaskTotals groups l1 startDate endDate w t =
        seasonTaskTotals groups l2 startDate endDate w t) ∧
      (∀ w t, reportDataMap l1 w t = reportDataMap l2 w t) ∧
      (∀ w, seasonDays groups wds1 startYear w =
        seasonDays groups wds2 startYear w) ∧
      (∀ (wid y m : ℕ) (p : Bool),
        (wds1.filter fun d => d.workerId == wid && d.year == y &&
          d.month == m && d.periodFirst == p).length ≤ 1 →
        getDaysWorked wds1 wid y m p = getDaysWorked wds2 wid y m p) := by
  intro groups startDate endDate startYear l1 l2 wds1 wds2 hl hw
  refine ⟨?_, ?_, ?_, ?_⟩
  · intro w t
    unfold seasonTaskTotals
    rw [accumulateQuantities_apply, accumulateQuantities_apply]
    exact List.Perm.sum_eq (List.Perm.map _ (List.Perm.filter _
      (List.Perm.filter _ hl)))
  · intro w t
    unfold reportDataMap
    rw [accumulateQuantities_apply, accumulateQuantities_apply]
    exact List.Perm.sum_eq (List.Perm.map _ (List.Perm.filter _ hl))
  · intro w
    unfold seasonDays
    rw [accumulateDays_apply, accumulateDays_apply]
    exact List.Perm.sum_eq (List.Perm.map _ (List.Perm.filter _
      (List.Perm.filter _ hw)))
  · intro wid y m p hlen
    unfold getDaysWorked
    rw [find?_eq_head?_filter, find?_eq_head?_filter,
      perm_filter_eq_of_length_le_one _ hw hlen]

/-- Witness for C8: swapping the two sample logs and the two sample
attendance entries leaves the season totals and the bi-monthly days lookup
unchanged. -/
theorem claim_C8_witness :
    ([exLog, exLog2].Perm [exLog2, exLog]) ∧
    ([exWd1, exWd2].Perm [exWd2, exWd1]) ∧
    (([exWd1, exWd2].filter fun d => d.workerId == 1 && d.year == 2025 &&
        d.month == 6 && d.periodFirst == true).length ≤ 1) ∧
    (seasonTaskTotals exGroups [exLog, exLog2] "2025-05-01" "2026-04-30" 1 10 =
      seasonTaskTotals exGroups [exLog2, exLog] "2025-05-01" "2026-04-30" 1 10) ∧
    (getDaysWorked [exWd1, exWd2] 1 2025 6 true =
      getDaysWorked [exWd2, exWd1] 1 2025 6 true) :=
  ⟨by decide, by decide, by decide,
    (claim_C8 exGroups "2025-05-01" "2026-04-30" 2025 [exLog, exLog2]
      [exLog2, exLog] [exWd1, exWd2] [exWd2, exWd1] (by decide)
      (by decide)).1 1 10,
    ((claim_C8 exGroups "2025-05-01" "2026-04-30" 2025 [exLog, exLog2]
      [exLog2, exLog] [exWd1, exWd2] [exWd2, exWd1] (by decide)
      (by decide)).2.2.2) 1 2025 6 true (by decide)⟩

end MOT2
